import Mathlib

/-!
Verification of the apteryx RPC transport (rpc.c).

This file gives a shallow embedding of the framed codec, the server
per-connection read callback and its framing loop, the server response
closure, the send loops, the client request/response engine, the URL
parser with bind/unbind/connect, and the event-loop bookkeeping of the
pending and working callback lists, all translated from rpc.c.  Theorems
about these definitions settle the frozen claims about the transport.

Bytes are modelled as natural numbers (values below 256 on the wire; the
packing functions take the value modulo 256 exactly where the C code
truncates to uint8_t).  External collaborators - protobuf-c pack/unpack
over payload bytes and the inet_pton address parsers - are parameters,
since the transport treats them as opaque.
-/

set_option maxHeartbeats 1000000

/-- RPC_HEADER_LENGTH from rpc.c:79: 3 * sizeof(uint32_t). -/
def RPC_HEADER_LENGTH : Nat := 12

/-- Little-endian encoding of a u32 value as four bytes (htol32 followed by
the byte layout of a uint32_t on the little-endian wire, rpc.c:93-98). -/
def toLE32 (n : Nat) : List Nat :=
  [n % 256, n / 256 % 256, n / 65536 % 256, n / 16777216 % 256]

/-- Reads a u32 from the first four bytes of a buffer (ltoh32 of
((uint32_t*)b)[i], rpc.c:87-92).  The C code always reads four bytes; a
shorter list models a buffer holding fewer valid bytes than the read, and
the missing bytes are zero-extended here (the code never uses a value read
from an incomplete buffer: the framing guards discard it). -/
def fromLE32 : List Nat → Nat
  | [] => 0
  | [b0] => b0
  | [b0, b1] => b0 + 256 * b1
  | [b0, b1, b2] => b0 + 256 * b1 + 65536 * b2
  | b0 :: b1 :: b2 :: b3 :: _ => b0 + 256 * b1 + 65536 * b2 + 16777216 * b3

/-- rpc_message_t (rpc.c:80-86) without the connection back-pointer: the
three u32 header fields. -/
structure RpcMessage where
  method_index : Nat
  message_length : Nat
  request_id : Nat
  deriving Repr, DecidableEq

/-- pack_header (rpc.c:93-98): the three u32 fields little-endian at byte
offsets 0, 4 and 8. -/
def pack_header (h : RpcMessage) : List Nat :=
  toLE32 h.method_index ++ toLE32 h.message_length ++ toLE32 h.request_id

/-- unpack_header (rpc.c:87-92): reads the three u32 fields from byte
offsets 0, 4 and 8. -/
def unpack_header (b : List Nat) : RpcMessage :=
  RpcMessage.mk (fromLE32 b) (fromLE32 (b.drop 4)) (fromLE32 (b.drop 8))

/-- The service collaborator as the transport sees it (rpc.c:286-307): the
descriptor's method count, a per-method request-payload decoder
(protobuf_c_message_unpack succeeding or returning NULL), and the handler
behind service->invoke, which hands the closure a response message whose
packed payload bytes this model returns directly. -/
structure ServiceModel where
  n_methods : Nat
  decode_ok : Nat → List Nat → Bool
  handle : Nat → List Nat → List Nat

/-- server_connection_response_closure (rpc.c:198-217): the bytes written
into the connection's outgoing buffer for one response.  A 16-byte head is
built in a zeroed stack buffer - 4 zero status bytes, then the request's
header packed at offset 4 with message_length overwritten by the packed
size of the response message (rpc.c:209-210) - and appended, followed by
the packed response payload.  (protobuf_c_message_pack_to_buffer writes
exactly get_packed_size bytes by the collaborator's contract, so the
payload length equals the stamped message_length.)  Draining the buffer to
the socket is modelled separately by send_loop. -/
def server_connection_response_closure (msg : RpcMessage) (payload : List Nat) : List Nat :=
  0 :: 0 :: 0 :: 0 ::
    pack_header (RpcMessage.mk msg.method_index payload.length msg.request_id) ++ payload

/-- Outcome of the framing loop inside conn_callback: the connection stays
registered (return 0, rpc.c:312) or is torn down (the error label,
rpc.c:314-321). -/
inductive FrameOutcome
  | keep
  | closeConn
  deriving Repr, DecidableEq

/-- Observable result of the framing loop of conn_callback (rpc.c:268-311):
the frames dispatched to the service (header plus request payload), the
response bytes the closure produced for each dispatch, the bytes left in
the inbound buffer, how many times unpack_header ran, and whether the
connection survives. -/
structure FrameResult where
  dispatched : List (RpcMessage × List Nat)
  responses : List (List Nat)
  remaining : List Nat
  headerAttempts : Nat
  outcome : FrameOutcome
  deriving Repr, DecidableEq

/-- The while loop of conn_callback (rpc.c:268-311), fuel-indexed.  Per
iteration, in source order: stop when the buffer is empty (rpc.c:268);
unpack the header unconditionally (rpc.c:275); break and wait for more
bytes when the buffer holds less than a header or less than the declared
frame (rpc.c:276-281); close the connection on a bad method index
(rpc.c:286-290); unpack the request payload, closing on failure
(rpc.c:291-298); consume the frame (rpc.c:300-303) and invoke the service,
whose closure builds the response (rpc.c:305-307).  Each iteration that
recurses consumes at least a header, so fuel b.length + 1 never runs
out. -/
def frame_loop (svc : ServiceModel) : Nat → List Nat → FrameResult
  | 0, b => FrameResult.mk [] [] b 0 FrameOutcome.keep
  | fuel + 1, b =>
    if b.length = 0 then FrameResult.mk [] [] b 0 FrameOutcome.keep
    else
      let msg := unpack_header b
      if b.length < RPC_HEADER_LENGTH ∨ b.length < RPC_HEADER_LENGTH + msg.message_length then
        FrameResult.mk [] [] b 1 FrameOutcome.keep
      else if svc.n_methods ≤ msg.method_index then
        FrameResult.mk [] [] b 1 FrameOutcome.closeConn
      else
        let payload := (b.drop RPC_HEADER_LENGTH).take msg.message_length
        if svc.decode_ok msg.method_index payload = false then
          FrameResult.mk [] [] b 1 FrameOutcome.closeConn
        else
          let rest := frame_loop svc fuel (b.drop (RPC_HEADER_LENGTH + msg.message_length))
          FrameResult.mk ((msg, payload) :: rest.dispatched)
            (server_connection_response_closure msg (svc.handle msg.method_index payload)
              :: rest.responses)
            rest.remaining (1 + rest.headerAttempts) rest.outcome

/-- The framing loop run on an inbound buffer with sufficient fuel. -/
def conn_frames (svc : ServiceModel) (b : List Nat) : FrameResult :=
  frame_loop svc (b.length + 1) b

/-- Result of the single read(2) at the top of conn_callback (rpc.c:251):
bytes, end-of-stream (rv = 0), a transient EINTR/EAGAIN error, or any
other error. -/
inductive ReadResult
  | bytes (b : List Nat)
  | eofRead
  | transientErr
  | fatalErr
  deriving Repr, DecidableEq

/-- Effects of one conn_callback invocation (rpc.c:241-322): the returned
int, whether close(fd) and the frees of the error label ran
(rpc.c:315-320), the inbound buffer kept for the next invocation when the
connection stays registered, and the frames dispatched with their
responses. -/
structure CallbackResult where
  ret : Int
  fdClosed : Bool
  connFreed : Bool
  newIncoming : Option (List Nat)
  dispatched : List (RpcMessage × List Nat)
  responses : List (List Nat)
  deriving Repr, DecidableEq

/-- conn_callback (rpc.c:241-322): one read, then the framing loop over the
accumulated inbound buffer.  EOF and non-transient read errors go to the
error label; EINTR/EAGAIN returns 0 with no progress and is modelled by
transientErr. -/
def conn_callback (svc : ServiceModel) (incoming : List Nat) (r : ReadResult) : CallbackResult :=
  match r with
  | ReadResult.eofRead => CallbackResult.mk (-1) true true none [] []
  | ReadResult.fatalErr => CallbackResult.mk (-1) true true none [] []
  | ReadResult.transientErr => CallbackResult.mk 0 false false (some incoming) [] []
  | ReadResult.bytes b =>
    let res := conn_frames svc (incoming ++ b)
    match res.outcome with
    | FrameOutcome.closeConn =>
      CallbackResult.mk (-1) true true none res.dispatched res.responses
    | FrameOutcome.keep =>
      CallbackResult.mk 0 false false (some res.remaining) res.dispatched res.responses

/-- One send(2) result in a drain loop (rpc.c:222 server response drain,
rpc.c:683 client request send): rv positive bytes written, rv = 0
(connection closed), EINTR/EAGAIN, or another error. -/
inductive SendEv
  | sent (rv : Nat)
  | sendEof
  | sendAgain
  | sendErr
  deriving Repr, DecidableEq

/-- How a drain loop ended: the whole length was written, the loop aborted
on EOF or a non-transient error, or the event trace ran out with bytes
still pending. -/
inductive SendOutcome
  | completed
  | abortedEof
  | abortedErr
  | starved
  deriving Repr, DecidableEq

/-- The send loop shared by server_connection_response_closure
(rpc.c:219-237) and invoke_client_service (rpc.c:679-700).  The data
pointer is initialized to the buffer start and never advanced: each
send(fd, data, len) transmits the first rv bytes of the ORIGINAL buffer,
and only the remaining length is decremented (rpc.c:236 and rpc.c:699).
The first component of the result is the concatenation of the byte runs
actually handed to the kernel, in order. -/
def send_loop (orig : List Nat) : Nat → List SendEv → List Nat × SendOutcome
  | 0, _ => ([], SendOutcome.completed)
  | _ + 1, [] => ([], SendOutcome.starved)
  | len + 1, SendEv.sent rv :: rest =>
    let k := min rv (len + 1)
    let out := send_loop orig (len + 1 - k) rest
    (orig.take k ++ out.1, out.2)
  | _ + 1, SendEv.sendEof :: _ => ([], SendOutcome.abortedEof)
  | len + 1, SendEv.sendAgain :: rest => send_loop orig (len + 1) rest
  | _ + 1, SendEv.sendErr :: _ => ([], SendOutcome.abortedErr)

/-- One read(2) result in the client response loop (rpc.c:710), carrying
the elapsed microseconds since the request was sent as observed by the
get_time_us() call of the timeout test (rpc.c:716). -/
inductive RecvEv
  | recvd (elapsed : Nat) (bytes : List Nat)
  | recvEof
  | recvAgain (elapsed : Nat)
  | recvErr (elapsed : Nat)
  deriving Repr, DecidableEq

/-- Outcome of the client response loop: a complete response frame
accepted (with the accumulated buffer, the header as decoded, and the
number of unpack_header calls made), one of the goto error exits (EOF,
timeout, non-transient read error), or the event trace ran out with the
loop still waiting for bytes. -/
inductive RecvOutcome
  | accepted (buf : List Nat) (msg : RpcMessage) (attempts : Nat)
  | failed (attempts : Nat)
  | starved (buf : List Nat) (attempts : Nat)
  deriving Repr, DecidableEq

/-- The while(1) response loop of invoke_client_service (rpc.c:706-738),
in source order: read; rv = 0 goes to error (rpc.c:711-715); then the
timeout test against RPC_TIMEOUT_US (rpc.c:716-720, applied even to a
successful read); then EINTR/EAGAIN retries and other errors go to error
(rpc.c:721-727); then the bytes are appended, unpack_header runs at buffer
offset 4 regardless of how many bytes are buffered (rpc.c:731-732), and
the loop exits once the buffer holds 4 + RPC_HEADER_LENGTH +
message_length bytes (rpc.c:733-737). -/
def client_recv_loop (timeout : Nat) : List Nat → Nat → List RecvEv → RecvOutcome
  | buf, attempts, [] => RecvOutcome.starved buf attempts
  | _, attempts, RecvEv.recvEof :: _ => RecvOutcome.failed attempts
  | buf, attempts, RecvEv.recvd elapsed bytes :: rest =>
    if timeout < elapsed then RecvOutcome.failed attempts
    else
      let buf2 := buf ++ bytes
      let msg := unpack_header (buf2.drop 4)
      if RPC_HEADER_LENGTH + 4 ≤ buf2.length ∧
          RPC_HEADER_LENGTH + 4 + msg.message_length ≤ buf2.length then
        RecvOutcome.accepted buf2 msg (attempts + 1)
      else
        client_recv_loop timeout buf2 (attempts + 1) rest
  | buf, attempts, RecvEv.recvAgain elapsed :: rest =>
    if timeout < elapsed then RecvOutcome.failed attempts
    else client_recv_loop timeout buf attempts rest
  | _, attempts, RecvEv.recvErr _ :: _ => RecvOutcome.failed attempts

/-- Observable result of one invoke_client_service call (rpc.c:645-768):
the client's request_id counter after the call, the request frame built
for the wire, the bytes actually handed to send(2), how the send loop
ended (none when serialization failed before any send), the arguments of
every closure call made (none models a NULL response), and whether the
event trace ran out before the call could finish. -/
structure InvokeResult where
  newRequestId : Nat
  requestFrame : List Nat
  wireBytes : List Nat
  sendOutcome : Option SendOutcome
  closureCalls : List (Option (List Nat))
  blocked : Bool
  deriving Repr, DecidableEq

/-- invoke_client_service (rpc.c:645-768).  The request_id counter is
pre-incremented and stamped into the header before anything can fail
(rpc.c:661-664).  packOk models protobuf_c_message_pack_to_buffer
producing the promised packed size (failure reports a NULL response,
rpc.c:666-673).  The request frame is header plus packed input with no
status prefix.  After the send loop: rv = 0 and non-transient send errors
return WITHOUT calling the closure (rpc.c:684-697).  A completed send
enters the response loop; its error exits report a NULL response
(rpc.c:764-767).  An accepted frame is decoded against the method's output
descriptor, modelled by the outOk oracle over the payload bytes
(rpc.c:741-754; a zero-length payload decodes from NULL input), and the
closure receives the result (rpc.c:758). -/
def invoke_client_service (timeout : Nat) (outOk : List Nat → Bool)
    (request_id : Nat) (method_index : Nat) (inputBytes : List Nat) (packOk : Bool)
    (sends : List SendEv) (recvs : List RecvEv) : InvokeResult :=
  let rid := request_id + 1
  let frame := pack_header (RpcMessage.mk method_index inputBytes.length rid) ++ inputBytes
  if packOk = false then
    InvokeResult.mk rid frame [] none [none] false
  else
    let s := send_loop frame frame.length sends
    match s.2 with
    | SendOutcome.abortedEof => InvokeResult.mk rid frame s.1 (some SendOutcome.abortedEof) [] false
    | SendOutcome.abortedErr => InvokeResult.mk rid frame s.1 (some SendOutcome.abortedErr) [] false
    | SendOutcome.starved => InvokeResult.mk rid frame s.1 (some SendOutcome.starved) [] true
    | SendOutcome.completed =>
      match client_recv_loop timeout [] 0 recvs with
      | RecvOutcome.failed _ =>
        InvokeResult.mk rid frame s.1 (some SendOutcome.completed) [none] false
      | RecvOutcome.starved _ _ =>
        InvokeResult.mk rid frame s.1 (some SendOutcome.completed) [] true
      | RecvOutcome.accepted buf msg _ =>
        let payload := (buf.drop (RPC_HEADER_LENGTH + 4)).take msg.message_length
        if outOk payload then
          InvokeResult.mk rid frame s.1 (some SendOutcome.completed) [some payload] false
        else
          InvokeResult.mk rid frame s.1 (some SendOutcome.completed) [none] false

/-- PF_UNIX / AF_UNIX on Linux. -/
def PF_UNIX : Nat := 1

/-- AF_INET on Linux. -/
def AF_INET : Nat := 2

/-- AF_INET6 on Linux. -/
def AF_INET6 : Nat := 10

/-- The address union of rpc_socket_t (rpc.c:36-41): a sockaddr_un path, or
a sockaddr_in / sockaddr_in6 with the address bytes produced by inet_pton
and the 16-bit port.  parse_url zeroes the whole structure before filling
it (calloc at rpc.c:140, memset at rpc.c:153), so two sockets built from
the same URL are bytewise identical and memcmp equality coincides with
structural equality of these fields. -/
inductive SockAddr
  | un (path : List Char)
  | in4 (addrBytes : List Nat) (port : Nat)
  | in6 (addrBytes : List Nat) (port : Nat)
  deriving Repr, DecidableEq

/-- rpc_socket_t (rpc.c:34-45): family, address, file descriptor.  The fd
of a freshly parsed socket is 0 from calloc (rpc.c:140); bind and connect
overwrite it with the socket(2) result. -/
structure RpcSock where
  family : Nat
  addr : SockAddr
  fd : Int
  deriving Repr, DecidableEq

/-- C isspace, the whitespace skipped by a %d conversion. -/
def isSpaceC (c : Char) : Bool :=
  c == ' ' || c == '\t' || c == '\n' || c == '\r' || c == '\x0B' || c == '\x0C'

/-- Numeric value of a run of decimal digits. -/
def digitsVal (ds : List Char) : Int :=
  ds.foldl (fun a c => a * 10 + (Int.ofNat (c.toNat - 48))) 0

/-- A %99d conversion: skip whitespace, optional sign, at least one digit,
at most 99 characters consumed by the field. -/
def scanInt (s : List Char) : Option Int :=
  let s1 := (s.dropWhile isSpaceC).take 99
  match s1 with
  | '-' :: t =>
    let ds := t.takeWhile Char.isDigit
    if ds.isEmpty then none else some (-(digitsVal ds))
  | '+' :: t =>
    let ds := t.takeWhile Char.isDigit
    if ds.isEmpty then none else some (digitsVal ds)
  | t =>
    let ds := t.takeWhile Char.isDigit
    if ds.isEmpty then none else some (digitsVal ds)

/-- sscanf (url, "tcp://%99[^:]:%99d", host, &port) == 2 (rpc.c:159): the
literal tcp://, then a nonempty run of at most 99 non-colon characters,
then a literal colon, then an integer.  A run longer than 99 characters
stops at the width limit with a non-colon character next, so the literal
colon match fails and the whole conversion yields fewer than 2 items. -/
def scan_tcp4 (url : List Char) : Option (List Char × Int) :=
  if url.take 6 = ("tcp://".toList) then
    let rest := url.drop 6
    let run := rest.takeWhile (fun c => c != ':')
    if run.isEmpty then none
    else if 99 < run.length then none
    else
      match rest.drop run.length with
      | ':' :: t => (scanInt t).map (fun v => (run, v))
      | _ => none
  else none

/-- sscanf (url, "tcp://[%99[^]]:%99d", host, &port) == 2 (rpc.c:174).
The scanset [^]] stops only at a right bracket, and the format carries no
literal right bracket after it, so the following literal colon can only
match when the scanset stopped at its 99-character width limit with a
colon as the next character. -/
def scan_tcp6 (url : List Char) : Option (List Char × Int) :=
  if url.take 7 = ("tcp://[".toList) then
    let rest := url.drop 7
    let run := rest.takeWhile (fun c => c != ']')
    if run.isEmpty then none
    else if run.length ≤ 99 then none
    else
      match rest.drop 99 with
      | ':' :: t => (scanInt t).map (fun v => (run.take 99, v))
      | _ => none
  else none

/-- htons of the int parsed by %d: conversion to the 16-bit port field
keeps the value modulo 2^16 (the byte swap preserves the value and is
abstracted away). -/
def portToNet (p : Int) : Nat := (p % 65536).toNat

/-- parse_url (rpc.c:137-196).  pton4 and pton6 are the inet_pton(AF_INET)
and inet_pton(AF_INET6) collaborators, returning the address bytes on
success.  In source order: a unix:// PREFIX (strncmp of 7 characters,
rpc.c:145) accepts any URL, taking the rest up to the first colon verbatim
as the socket path (rpc.c:147-155); otherwise the IPv4 sscanf shape is
tried and an address-parse failure returns NULL without trying the IPv6
shape (rpc.c:159-172); otherwise the IPv6 sscanf shape (rpc.c:174-187);
otherwise NULL (rpc.c:188-193).  The returned socket has fd = 0 from
calloc. -/
def parse_url (pton4 pton6 : List Char → Option (List Nat)) (url : List Char) :
    Option RpcSock :=
  if url.take 7 = ("unix://".toList) then
    some (RpcSock.mk PF_UNIX (SockAddr.un ((url.drop 7).takeWhile (fun c => c != ':'))) 0)
  else
    match scan_tcp4 url with
    | some hp =>
      match pton4 hp.1 with
      | some b => some (RpcSock.mk AF_INET (SockAddr.in4 b (portToNet hp.2)) 0)
      | none => none
    | none =>
      match scan_tcp6 url with
      | some hp =>
        match pton6 hp.1 with
        | some b => some (RpcSock.mk AF_INET6 (SockAddr.in6 b (portToNet hp.2)) 0)
        | none => none
      | none => none

/-- rpc_bind_url (rpc.c:418-463): parse the URL, create/bind/listen a
socket (newFd is the socket(2) result; bindOk and listenOk model the
bind(2) and listen(2) calls), and on success append the socket - with fd
overwritten by newFd - to the server's socket list. -/
def rpc_bind_url (pton4 pton6 : List Char → Option (List Nat)) (url : List Char)
    (newFd : Int) (bindOk listenOk : Bool) (sockets : List RpcSock) :
    Bool × List RpcSock :=
  match parse_url pton4 pton6 url with
  | none => (false, sockets)
  | some sock =>
    if newFd < 0 then (false, sockets)
    else if bindOk = false then (false, sockets)
    else if listenOk = false then (false, sockets)
    else (true, sockets ++ [RpcSock.mk sock.family sock.addr newFd])

/-- Effects of rpc_unbind_url (rpc.c:465-495): the returned bool, the fd
closed if any, and the unix path unlinked if any. -/
structure UnbindResult where
  result : Bool
  closedFd : Option Int
  unlinked : Option (List Char)
  deriving Repr, DecidableEq

/-- rpc_unbind_url (rpc.c:465-495).  The URL is re-parsed and the bound
socket list is scanned with memcmp over the WHOLE rpc_socket_t
(rpc.c:481-482), i.e. family, address bytes AND the fd field must all be
equal; the freshly parsed socket carries fd = 0 from calloc.  On a match
the fd is closed if nonnegative and a unix path is unlinked
(rpc.c:484-487). -/
def rpc_unbind_url (pton4 pton6 : List Char → Option (List Nat)) (sockets : List RpcSock)
    (url : List Char) : UnbindResult :=
  match parse_url pton4 pton6 url with
  | none => UnbindResult.mk false none none
  | some parsed =>
    match sockets.find? (fun s => decide (s = parsed)) with
    | some s =>
      UnbindResult.mk true (if 0 ≤ s.fd then some s.fd else none)
        (if s.family = PF_UNIX then
          (match s.addr with
           | SockAddr.un p => some p
           | _ => none)
         else none)
    | none => UnbindResult.mk false none none

/-- State of the event loop's callback bookkeeping (rpc_server_t,
rpc.c:47-59): the pending and working lists, the entries currently popped
and owned by a worker (in neither list), and an allocation counter that
names each malloc'd callback_t by a fresh number. -/
structure SrvState where
  pending : List Nat
  working : List Nat
  held : List Nat
  next : Nat
  deriving Repr, DecidableEq

/-- The mutex-protected critical sections of rpc.c that touch the pending
and working lists, each one an atomic step: add_cb appending a fresh entry
to pending (rpc.c:352-354 under the lock; rpc.c:460, 522, 533 before the
loop runs); the event loop moving a ready entry from pending to working
(rpc.c:575-592); a worker popping the head of working before running its
callback (rpc.c:388-391); a worker re-appending the entry to pending after
the callback returned 0 (rpc.c:399-401); a worker freeing the entry after
a nonzero return (rpc.c:406). -/
inductive SrvStep : SrvState → SrvState → Prop
  | add (s : SrvState) :
      SrvStep s (SrvState.mk (s.pending ++ [s.next]) s.working s.held (s.next + 1))
  | move (s : SrvState) (e : Nat) (h : e ∈ s.pending) :
      SrvStep s (SrvState.mk (s.pending.erase e) (s.working ++ [e]) s.held s.next)
  | pop (s : SrvState) (e : Nat) (rest : List Nat) (h : s.working = e :: rest) :
      SrvStep s (SrvState.mk s.pending rest (e :: s.held) s.next)
  | reinsert (s : SrvState) (e : Nat) (h : e ∈ s.held) :
      SrvStep s (SrvState.mk (s.pending ++ [e]) s.working (s.held.erase e) s.next)
  | drop (s : SrvState) (e : Nat) (h : e ∈ s.held) :
      SrvStep s (SrvState.mk s.pending s.working (s.held.erase e) s.next)

/-- The server state at rpc_provide_service entry: empty lists (rpc.c:60,
the zero-initialized thread-local). -/
def srvInit : SrvState := SrvState.mk [] [] [] 0

/-- States reachable from the initial server state through the
mutex-protected critical sections. -/
def SrvReachable (s : SrvState) : Prop :=
  Relation.ReflTransGen SrvStep srvInit s

/-- All entries a server state knows about, in one list. -/
def srvAll (s : SrvState) : List Nat :=
  s.pending ++ (s.working ++ s.held)

/-- The invariant carried through every step: no entry occurs twice across
pending, working and the worker-held entries, and every entry was
allocated (is below the allocation counter). -/
def SrvInv (s : SrvState) : Prop :=
  (srvAll s).Nodup ∧ ∀ e ∈ srvAll s, e < s.next

/-- A one-method echo service: the handler returns the request payload. -/
def svcEcho : ServiceModel :=
  ServiceModel.mk 1 (fun _ _ => true) (fun _ p => p)

/-- An inet_pton collaborator that accepts nothing; the unix:// claims do
not involve it. -/
def ptonNone : List Char → Option (List Nat) := fun _ => none

/-- After add, move, pop: the state in which a worker has popped entry 0
from working (rpc.c:388-391) and is about to run its callback
(rpc.c:396). -/
def srvHeld0 : SrvState := SrvState.mk [] [] [0] 1

/-! ## Theorems -/

theorem le32_digits (n : Nat) (h : n < 4294967296) :
    n % 256 + 256 * (n / 256 % 256) + 65536 * (n / 65536 % 256) +
      16777216 * (n / 16777216 % 256) = n := by
  omega

theorem unpack_header_pack (m l r : Nat) (t : List Nat)
    (hm : m < 4294967296) (hl : l < 4294967296) (hr : r < 4294967296) :
    unpack_header (pack_header (RpcMessage.mk m l r) ++ t) = RpcMessage.mk m l r := by
  have e : unpack_header (pack_header (RpcMessage.mk m l r) ++ t) =
      RpcMessage.mk
        (m % 256 + 256 * (m / 256 % 256) + 65536 * (m / 65536 % 256) +
          16777216 * (m / 16777216 % 256))
        (l % 256 + 256 * (l / 256 % 256) + 65536 * (l / 65536 % 256) +
          16777216 * (l / 16777216 % 256))
        (r % 256 + 256 * (r / 256 % 256) + 65536 * (r / 65536 % 256) +
          16777216 * (r / 16777216 % 256)) := rfl
  rw [e, le32_digits m hm, le32_digits l hl, le32_digits r hr]

theorem pack_header_length (h : RpcMessage) :
    (pack_header h).length = RPC_HEADER_LENGTH := rfl

/-- C5: for all method_index, message_length, request_id below 2^32,
packing the 12-byte header and unpacking it yields the identical three
values, and the packed bytes are the little-endian encodings of the three
u32 fields at offsets 0, 4 and 8. -/
theorem header_pack_unpack_roundtrip (m l r : Nat)
    (hm : m < 4294967296) (hl : l < 4294967296) (hr : r < 4294967296) :
    unpack_header (pack_header (RpcMessage.mk m l r)) = RpcMessage.mk m l r ∧
    pack_header (RpcMessage.mk m l r) =
      [m % 256, m / 256 % 256, m / 65536 % 256, m / 16777216 % 256,
       l % 256, l / 256 % 256, l / 65536 % 256, l / 16777216 % 256,
       r % 256, r / 256 % 256, r / 65536 % 256, r / 16777216 % 256] := by
  constructor
  · have h := unpack_header_pack m l r [] hm hl hr
    rwa [List.append_nil] at h
  · rfl

/-- C5 witness: the roundtrip at the concrete header (7, 300, 81985529216486895 % 2^32). -/
theorem header_pack_unpack_roundtrip_witness :
    unpack_header (pack_header (RpcMessage.mk 7 300 19088743)) = RpcMessage.mk 7 300 19088743 ∧
    pack_header (RpcMessage.mk 7 300 19088743) =
      [7, 0, 0, 0, 44, 1, 0, 0, 103, 69, 35, 1] := by
  have h := header_pack_unpack_roundtrip 7 300 19088743 (by decide) (by decide) (by decide)
  exact ⟨h.1, by decide⟩

theorem frame_loop_nil (svc : ServiceModel) (fuel : Nat) :
    frame_loop svc fuel [] = FrameResult.mk [] [] [] 0 FrameOutcome.keep := by
  cases fuel <;> simp [frame_loop]

/-- Evaluation of the framing loop on a buffer holding exactly one complete
frame whose method index is valid and whose payload decodes. -/
theorem conn_frames_single (svc : ServiceModel) (m l r : Nat) (pin : List Nat)
    (hm : m < 4294967296) (hl : l < 4294967296) (hr : r < 4294967296)
    (hmi : m < svc.n_methods) (hlen : pin.length = l)
    (hdec : svc.decode_ok m pin = true) :
    conn_frames svc (pack_header (RpcMessage.mk m l r) ++ pin) =
      FrameResult.mk [(RpcMessage.mk m l r, pin)]
        [server_connection_response_closure (RpcMessage.mk m l r) (svc.handle m pin)]
        [] 1 FrameOutcome.keep := by
  have hblen : (pack_header (RpcMessage.mk m l r) ++ pin).length = 12 + l := by
    simp [List.length_append, pack_header_length, hlen, RPC_HEADER_LENGTH]
  have hmsg : unpack_header (pack_header (RpcMessage.mk m l r) ++ pin) = RpcMessage.mk m l r :=
    unpack_header_pack m l r pin hm hl hr
  have hdropHdr : (pack_header (RpcMessage.mk m l r) ++ pin).drop RPC_HEADER_LENGTH = pin := by
    have h12 : RPC_HEADER_LENGTH = (pack_header (RpcMessage.mk m l r)).length := rfl
    rw [h12, List.drop_left]
  have htake : pin.take l = pin := by rw [← hlen]; exact List.take_length pin
  have hdropAll : (pack_header (RpcMessage.mk m l r) ++ pin).drop (RPC_HEADER_LENGTH + l) = [] := by
    apply List.drop_eq_nil_of_le
    rw [hblen]
    exact Nat.le_refl _
  have hR : RPC_HEADER_LENGTH = 12 := rfl
  unfold conn_frames
  rw [hblen]
  rw [frame_loop]
  rw [if_neg (by omega)]
  simp only [hmsg]
  rw [if_neg (by rw [hblen]; omega)]
  rw [if_neg (by omega)]
  rw [hdropHdr, htake]
  rw [if_neg (by simp [hdec])]
  rw [hdropAll, frame_loop_nil]
  rfl

/-- C1: every response frame the server closure builds for a dispatched
request consists of exactly 4 zero status bytes, then the 12-byte
little-endian header echoing the request's method_index and request_id
with message_length set to the packed size of the response payload, then
exactly message_length payload bytes (rpc.c:198-217; the request header
reaches the closure as the msg unpacked at rpc.c:275 and stamped at
rpc.c:209-210). -/
theorem server_response_frame_ok (svc : ServiceModel) (m l r : Nat) (pin : List Nat)
    (hm : m < 4294967296) (hl : l < 4294967296) (hr : r < 4294967296)
    (hmi : m < svc.n_methods) (hlen : pin.length = l)
    (hdec : svc.decode_ok m pin = true)
    (hout : (svc.handle m pin).length < 4294967296) :
    (conn_frames svc (pack_header (RpcMessage.mk m l r) ++ pin)).responses =
      [0 :: 0 :: 0 :: 0 ::
        pack_header (RpcMessage.mk m (svc.handle m pin).length r) ++ svc.handle m pin] ∧
    unpack_header (pack_header (RpcMessage.mk m (svc.handle m pin).length r)) =
      RpcMessage.mk m (svc.handle m pin).length r ∧
    (0 :: 0 :: 0 :: 0 ::
        pack_header (RpcMessage.mk m (svc.handle m pin).length r) ++ svc.handle m pin).length =
      4 + RPC_HEADER_LENGTH + (svc.handle m pin).length := by
  refine ⟨?_, ?_, ?_⟩
  · rw [conn_frames_single svc m l r pin hm hl hr hmi hlen hdec]
    rfl
  · have h := unpack_header_pack m (svc.handle m pin).length r [] hm hout hr
    rwa [List.append_nil] at h
  · simp [List.length_append, pack_header_length, RPC_HEADER_LENGTH]
    omega

/-- C1 witness: the echo service answering method 0, request_id 1, payload
"hello" produces exactly the 21 wire bytes of spec scenario 1. -/
theorem server_response_frame_ok_witness :
    (conn_frames svcEcho
        (pack_header (RpcMessage.mk 0 5 1) ++ [104, 101, 108, 108, 111])).responses =
      [0 :: 0 :: 0 :: 0 ::
        pack_header (RpcMessage.mk 0 (svcEcho.handle 0 [104, 101, 108, 108, 111]).length 1) ++
          svcEcho.handle 0 [104, 101, 108, 108, 111]] ∧
    (conn_frames svcEcho
        (pack_header (RpcMessage.mk 0 5 1) ++ [104, 101, 108, 108, 111])).responses =
      [[0, 0, 0, 0, 0, 0, 0, 0, 5, 0, 0, 0, 1, 0, 0, 0, 104, 101, 108, 108, 111]] := by
  have h := server_response_frame_ok svcEcho 0 5 1 [104, 101, 108, 108, 111]
    (by decide) (by decide) (by decide) (by decide) (by decide) (by decide) (by decide)
  exact ⟨h.1, by decide⟩

/-- C6: when the read callback has a complete frame whose method_index is
not below the collaborator's n_methods, it goes to the error label
(rpc.c:286-290): the fd is closed, the connection state is freed, the
callback returns -1 (so the worker frees the entry instead of
re-registering it, rpc.c:406), and the frame is never dispatched to the
service. -/
theorem conn_callback_bad_method_closes (svc : ServiceModel) (m l r : Nat)
    (payload rest : List Nat)
    (hm : m < 4294967296) (hl : l < 4294967296) (hr : r < 4294967296)
    (hplen : payload.length = l) (hbad : svc.n_methods ≤ m) :
    conn_callback svc [] (ReadResult.bytes (pack_header (RpcMessage.mk m l r) ++ (payload ++ rest))) =
      CallbackResult.mk (-1) true true none [] [] := by
  have hR : RPC_HEADER_LENGTH = 12 := rfl
  have hmsg := unpack_header_pack m l r (payload ++ rest) hm hl hr
  have hblen : (pack_header (RpcMessage.mk m l r) ++ (payload ++ rest)).length =
      12 + (payload.length + rest.length) := by
    rw [List.length_append, pack_header_length, List.length_append, hR]
  have hframes : conn_frames svc (pack_header (RpcMessage.mk m l r) ++ (payload ++ rest)) =
      FrameResult.mk [] [] (pack_header (RpcMessage.mk m l r) ++ (payload ++ rest)) 1
        FrameOutcome.closeConn := by
    unfold conn_frames
    rw [frame_loop]
    rw [if_neg (by omega)]
    simp only [hmsg]
    rw [if_neg (by rw [hblen]; omega)]
    rw [if_pos hbad]
  unfold conn_callback
  simp only [List.nil_append, hframes]

/-- C6 witness: the echo service (one method) receiving a complete frame
with method_index 1 closes the connection without dispatching. -/
theorem conn_callback_bad_method_closes_witness :
    conn_callback svcEcho []
      (ReadResult.bytes (pack_header (RpcMessage.mk 1 0 0) ++ ([] ++ []))) =
      CallbackResult.mk (-1) true true none [] [] :=
  conn_callback_bad_method_closes svcEcho 1 0 0 [] []
    (by decide) (by decide) (by decide) (by decide) (by decide)

theorem client_recv_accept_guard (timeout : Nat) (evs : List RecvEv) :
    ∀ buf attempts bufR msg att,
      client_recv_loop timeout buf attempts evs = RecvOutcome.accepted bufR msg att →
      RPC_HEADER_LENGTH + 4 ≤ bufR.length ∧
      RPC_HEADER_LENGTH + 4 + msg.message_length ≤ bufR.length ∧
      msg = unpack_header (bufR.drop 4) := by
  induction evs with
  | nil =>
    intro buf attempts bufR msg att h
    simp [client_recv_loop] at h
  | cons ev rest ih =>
    intro buf attempts bufR msg att h
    cases ev with
    | recvEof => simp [client_recv_loop] at h
    | recvErr e => simp [client_recv_loop] at h
    | recvAgain e =>
      simp only [client_recv_loop] at h
      split at h
      · exact absurd h (by simp)
      · exact ih buf attempts bufR msg att h
    | recvd e bytes =>
      simp only [client_recv_loop] at h
      split at h
      · exact absurd h (by simp)
      · split at h
        · rename_i hguard
          injection h with h1 h2 h3
          subst h1
          subst h2
          exact ⟨hguard.1, hguard.2, rfl⟩
        · exact ih (buf ++ bytes) (attempts + 1) bufR msg att h

/-- C2 (amended): the readers never ACT on an incomplete frame, although
both attempt the header unpack early.  Server side: whenever the inbound
buffer is nonempty but holds less than a header or less than the declared
frame, the framing loop performs exactly the one unconditional
unpack_header call of rpc.c:275, dispatches nothing, consumes nothing and
keeps the connection waiting for more bytes (rpc.c:276-281).  Client side:
the response loop accepts a frame only when its buffer holds at least
4 + RPC_HEADER_LENGTH + message_length bytes, message_length being the
value decoded at buffer offset 4 (rpc.c:731-737). -/
theorem frame_decode_guarded_action (svc : ServiceModel) (b : List Nat) (timeout : Nat)
    (buf : List Nat) (attempts : Nat) (evs : List RecvEv) :
    (b ≠ [] →
      (b.length < RPC_HEADER_LENGTH ∨
        b.length < RPC_HEADER_LENGTH + (unpack_header b).message_length) →
      conn_frames svc b = FrameResult.mk [] [] b 1 FrameOutcome.keep) ∧
    (∀ bufR msg att,
      client_recv_loop timeout buf attempts evs = RecvOutcome.accepted bufR msg att →
      RPC_HEADER_LENGTH + 4 ≤ bufR.length ∧
      RPC_HEADER_LENGTH + 4 + msg.message_length ≤ bufR.length ∧
      msg = unpack_header (bufR.drop 4)) := by
  constructor
  · intro hne hlt
    have h0 : ¬ b.length = 0 := fun h => hne (List.length_eq_zero.mp h)
    unfold conn_frames
    rw [frame_loop]
    rw [if_neg h0]
    simp only []
    rw [if_pos hlt]
  · exact client_recv_accept_guard timeout evs buf attempts

/-- C2 counterexample: the claim says a reader holding fewer bytes than the
frame attempts no decode, yet with a single byte 0 buffered the server's
framing loop has already run unpack_header once (rpc.c:275 precedes the
length guard of rpc.c:276), and the client loop likewise decodes a header
out of a 1-byte buffer (rpc.c:732 precedes the guard of rpc.c:733). -/
theorem frame_decode_unguarded_cex :
    (conn_frames svcEcho [0]).headerAttempts = 1 ∧
    ([0] : List Nat).length < RPC_HEADER_LENGTH ∧
    client_recv_loop 50000 [] 0 [RecvEv.recvd 0 [7]] = RecvOutcome.starved [7] 1 ∧
    ([7] : List Nat).length < RPC_HEADER_LENGTH + 4 := by
  decide

/-- C2 witness: the guarded-action theorem at the concrete 1-byte buffer. -/
theorem frame_decode_guarded_action_witness :
    conn_frames svcEcho [0] = FrameResult.mk [] [] [0] 1 FrameOutcome.keep :=
  (frame_decode_guarded_action svcEcho [0] 50000 [] 0 []).1 (by decide) (by decide)

/-- C4 (code bug): the send loops decrement the remaining length but never
advance the data pointer (rpc.c:219-237 and rpc.c:679-700), so after a
short write of 1 byte from the 3-byte buffer 1,2,3 followed by a write of
the remaining 2, the bytes handed to the kernel are 1,1,2 - a prefix is
re-sent - and not the buffer contents 1,2,3 that the claim requires. -/
theorem send_loop_stale_pointer_eval :
    send_loop [1, 2, 3] 3 [SendEv.sent 1, SendEv.sent 2] = ([1, 1, 2], SendOutcome.completed) ∧
    ([1, 1, 2] : List Nat) ≠ [1, 2, 3] := by
  decide

/-- C10: every invoke_client_service call increments the client's
request_id counter by exactly one before serialization or sending is
attempted (rpc.c:662, the pre-increment), and the request header is
stamped with the incremented value; the increment happens on failing calls
too, so ids on the wire may skip values. -/
theorem invoke_increments_request_id (timeout : Nat) (outOk : List Nat → Bool)
    (request_id method_index : Nat) (inputBytes : List Nat) (packOk : Bool)
    (sends : List SendEv) (recvs : List RecvEv) :
    (invoke_client_service timeout outOk request_id method_index inputBytes packOk
        sends recvs).newRequestId = request_id + 1 ∧
    (invoke_client_service timeout outOk request_id method_index inputBytes packOk
        sends recvs).requestFrame =
      pack_header (RpcMessage.mk method_index inputBytes.length (request_id + 1)) ++
        inputBytes := by
  simp only [invoke_client_service]
  constructor <;> (repeat' split) <;> rfl

/-- C3 counterexample: the claim says the closure is called exactly once
on every path, including send failures, but when the first send(2) reports
EOF the function unlocks and returns without any closure call
(rpc.c:684-689): a completed (non-blocked) invoke with zero closure
calls. -/
theorem invoke_send_eof_no_closure_cex :
    (invoke_client_service 50000 (fun _ => true) 0 0 [] true
        [SendEv.sendEof] []).closureCalls = [] ∧
    (invoke_client_service 50000 (fun _ => true) 0 0 [] true
        [SendEv.sendEof] []).blocked = false := by
  decide

/-- C3 (amended): on every completed invoke_client_service call the
caller's closure is called exactly once - with some payload on a decoded
response, with a null response on serialization failure and on every
receive-side failure (EOF, timeout, non-transient read error) - EXCEPT
when the send loop hits EOF or a non-transient error, in which case the
request is abandoned and the closure is not called at all
(rpc.c:684-697). -/
theorem invoke_closure_discipline (timeout : Nat) (outOk : List Nat → Bool)
    (request_id method_index : Nat) (inputBytes : List Nat) (packOk : Bool)
    (sends : List SendEv) (recvs : List RecvEv)
    (hb : (invoke_client_service timeout outOk request_id method_index inputBytes packOk
        sends recvs).blocked = false) :
    (invoke_client_service timeout outOk request_id method_index inputBytes packOk
        sends recvs).closureCalls.length =
      (if (invoke_client_service timeout outOk request_id method_index inputBytes packOk
            sends recvs).sendOutcome = some SendOutcome.abortedEof ∨
          (invoke_client_service timeout outOk request_id method_index inputBytes packOk
            sends recvs).sendOutcome = some SendOutcome.abortedErr
        then 0 else 1) := by
  simp only [invoke_client_service] at hb ⊢
  split at hb <;> rename_i h1
  · rw [if_pos h1]
    simp
  · rw [if_neg h1]
    split at hb <;> rename_i h2
    · simp only [h2]
      simp
    · simp only [h2]
      simp
    · simp at hb
    · split at hb
      · simp
      · simp at hb
      · split <;> simp

/-- C3 witness: a fully successful invoke (12-byte request sent whole, one
16-byte empty response read) makes exactly one closure call. -/
theorem invoke_closure_discipline_witness :
    (invoke_client_service 50000 (fun _ => true) 0 0 [] true [SendEv.sent 12]
        [RecvEv.recvd 0 [0, 0, 0, 0, 0, 0, 0, 0, 0, 0, 0, 0, 0, 0, 0, 0]]).closureCalls.length =
      (if (invoke_client_service 50000 (fun _ => true) 0 0 [] true [SendEv.sent 12]
            [RecvEv.recvd 0 [0, 0, 0, 0, 0, 0, 0, 0, 0, 0, 0, 0, 0, 0, 0, 0]]).sendOutcome =
            some SendOutcome.abortedEof ∨
          (invoke_client_service 50000 (fun _ => true) 0 0 [] true [SendEv.sent 12]
            [RecvEv.recvd 0 [0, 0, 0, 0, 0, 0, 0, 0, 0, 0, 0, 0, 0, 0, 0, 0]]).sendOutcome =
            some SendOutcome.abortedErr
        then 0 else 1) :=
  invoke_closure_discipline 50000 (fun _ => true) 0 0 [] true [SendEv.sent 12]
    [RecvEv.recvd 0 [0, 0, 0, 0, 0, 0, 0, 0, 0, 0, 0, 0, 0, 0, 0, 0]] (by decide)

/-- C7 (code bug): binding unix:///tmp/rpc-test.sock stores the socket
with its real fd 4, but rpc_unbind_url re-parses the URL into a socket
with fd 0 and matches with memcmp over the WHOLE structure including the
fd field (rpc.c:481-482), so the bound socket never compares equal:
unbind returns false and neither closes the fd nor unlinks the path,
contradicting the claim. -/
theorem unbind_url_never_matches_eval :
    rpc_bind_url ptonNone ptonNone ("unix:///tmp/rpc-test.sock".toList) 4 true true [] =
      (true, [RpcSock.mk PF_UNIX (SockAddr.un ("/tmp/rpc-test.sock".toList)) 4]) ∧
    rpc_unbind_url ptonNone ptonNone
        [RpcSock.mk PF_UNIX (SockAddr.un ("/tmp/rpc-test.sock".toList)) 4]
        ("unix:///tmp/rpc-test.sock".toList) =
      UnbindResult.mk false none none := by
  decide


theorem srvInv_init : SrvInv srvInit := by
  constructor
  · simp [srvAll, srvInit]
  · intro e he
    simp [srvAll, srvInit] at he

theorem srvInv_step (s t : SrvState) (hstep : SrvStep s t) (hinv : SrvInv s) : SrvInv t := by
  obtain ⟨hnd, hbound⟩ := hinv
  cases hstep with
  | add =>
    have e1 : (s.pending ++ [s.next]) ++ (s.working ++ s.held) =
        s.pending ++ (s.next :: (s.working ++ s.held)) := by
      rw [List.append_assoc]
      rfl
    have hperm : List.Perm ((s.pending ++ [s.next]) ++ (s.working ++ s.held))
        (s.next :: (s.pending ++ (s.working ++ s.held))) := by
      rw [e1]
      exact List.perm_middle
    have hnotmem : s.next ∉ srvAll s := fun hc => absurd (hbound s.next hc) (lt_irrefl _)
    constructor
    · show ((s.pending ++ [s.next]) ++ (s.working ++ s.held)).Nodup
      rw [hperm.nodup_iff]
      exact List.nodup_cons.mpr ⟨hnotmem, hnd⟩
    · intro e he
      have he1 : e ∈ (s.pending ++ [s.next]) ++ (s.working ++ s.held) := he
      have he2 : e ∈ s.next :: (s.pending ++ (s.working ++ s.held)) :=
        hperm.mem_iff.mp he1
      show e < s.next + 1
      rcases List.mem_cons.mp he2 with h | h
      · omega
      · have := hbound e h
        omega
  | move e he =>
    have e2 : (s.working ++ [e]) ++ s.held = s.working ++ (e :: s.held) := by
      rw [List.append_assoc]
      rfl
    have permT : List.Perm (s.pending.erase e ++ ((s.working ++ [e]) ++ s.held))
        (e :: (s.pending.erase e ++ (s.working ++ s.held))) := by
      rw [e2]
      exact ((List.perm_middle).append_left (s.pending.erase e)).trans List.perm_middle
    have permS : List.Perm (srvAll s)
        ((e :: s.pending.erase e) ++ (s.working ++ s.held)) :=
      (List.perm_cons_erase he).append_right (s.working ++ s.held)
    have permTS : List.Perm (s.pending.erase e ++ ((s.working ++ [e]) ++ s.held))
        (srvAll s) :=
      permT.trans permS.symm
    constructor
    · show (s.pending.erase e ++ ((s.working ++ [e]) ++ s.held)).Nodup
      exact permTS.nodup_iff.mpr hnd
    · intro x hx
      have hx1 : x ∈ s.pending.erase e ++ ((s.working ++ [e]) ++ s.held) := hx
      show x < s.next
      exact hbound x (permTS.mem_iff.mp hx1)
  | pop e rest hw =>
    have permT : List.Perm (s.pending ++ (rest ++ (e :: s.held)))
        (s.pending ++ (e :: (rest ++ s.held))) :=
      (List.perm_middle).append_left s.pending
    have eS : srvAll s = s.pending ++ (e :: (rest ++ s.held)) := by
      unfold srvAll
      rw [hw]
      rfl
    have permTS : List.Perm (s.pending ++ (rest ++ (e :: s.held))) (srvAll s) := by
      rw [eS]
      exact permT
    constructor
    · show (s.pending ++ (rest ++ (e :: s.held))).Nodup
      exact permTS.nodup_iff.mpr hnd
    · intro x hx
      have hx1 : x ∈ s.pending ++ (rest ++ (e :: s.held)) := hx
      show x < s.next
      exact hbound x (permTS.mem_iff.mp hx1)
  | reinsert e he =>
    have e3 : (s.pending ++ [e]) ++ (s.working ++ s.held.erase e) =
        s.pending ++ (e :: (s.working ++ s.held.erase e)) := by
      rw [List.append_assoc]
      rfl
    have permT : List.Perm ((s.pending ++ [e]) ++ (s.working ++ s.held.erase e))
        (e :: (s.pending ++ (s.working ++ s.held.erase e))) := by
      rw [e3]
      exact List.perm_middle
    have permS : List.Perm (srvAll s)
        (e :: (s.pending ++ (s.working ++ s.held.erase e))) := by
      have p4 : List.Perm s.held (e :: s.held.erase e) := List.perm_cons_erase he
      have p5 : List.Perm (s.working ++ s.held) (e :: (s.working ++ s.held.erase e)) :=
        (p4.append_left s.working).trans List.perm_middle
      exact (p5.append_left s.pending).trans List.perm_middle
    have permTS : List.Perm ((s.pending ++ [e]) ++ (s.working ++ s.held.erase e))
        (srvAll s) :=
      permT.trans permS.symm
    constructor
    · show ((s.pending ++ [e]) ++ (s.working ++ s.held.erase e)).Nodup
      exact permTS.nodup_iff.mpr hnd
    · intro x hx
      have hx1 : x ∈ (s.pending ++ [e]) ++ (s.working ++ s.held.erase e) := hx
      show x < s.next
      exact hbound x (permTS.mem_iff.mp hx1)
  | drop e he =>
    have sub : List.Sublist (s.held.erase e) s.held := List.erase_sublist e s.held
    have sub2 : List.Sublist (s.working ++ s.held.erase e) (s.working ++ s.held) :=
      sub.append_left s.working
    have sub3 : List.Sublist (s.pending ++ (s.working ++ s.held.erase e))
        (s.pending ++ (s.working ++ s.held)) :=
      sub2.append_left s.pending
    constructor
    · show (s.pending ++ (s.working ++ s.held.erase e)).Nodup
      exact List.Nodup.sublist sub3 hnd
    · intro x hx
      have hx1 : x ∈ s.pending ++ (s.working ++ s.held.erase e) := hx
      show x < s.next
      exact hbound x (sub3.subset hx1)

/-- C8 counterexample: the state reached by registering one entry (add_cb,
rpc.c:352-354), the event loop moving it to working (rpc.c:585-587), and a
worker popping it (rpc.c:388-391) before running its callback
(rpc.c:396).  The entry's fd is still registered with the server - the
worker will re-append the entry to pending at rpc.c:400 - yet at this
observable moment the entry belongs to NEITHER pending nor working, so
membership in exactly one of the two sets (pending xor working) fails. -/
theorem worker_held_entry_in_neither_set_cex :
    SrvReachable srvHeld0 ∧ srvHeld0.held = [0] ∧
    0 ∉ srvHeld0.pending ∧ 0 ∉ srvHeld0.working := by
  have h1 : SrvStep srvInit (SrvState.mk [0] [] [] 1) := SrvStep.add srvInit
  have h2 : SrvStep (SrvState.mk [0] [] [] 1) (SrvState.mk [] [0] [] 1) :=
    SrvStep.move (SrvState.mk [0] [] [] 1) 0 (by decide)
  have h3 : SrvStep (SrvState.mk [] [0] [] 1) srvHeld0 :=
    SrvStep.pop (SrvState.mk [] [0] [] 1) 0 [] rfl
  refine ⟨?_, rfl, by decide, by decide⟩
  exact Relation.ReflTransGen.tail (Relation.ReflTransGen.tail
    (Relation.ReflTransGen.single h1) h2) h3

/-- C8 (amended): in every state reachable through the mutex-protected
critical sections that touch the two lists, pending and working are each
duplicate-free and no entry is a member of both: every entry is in AT MOST
one of the two sets.  (An entry popped by a worker is in neither set while
its callback runs - the one correction the code forces on the claim's
"exactly one" - and each modelled step is one of the source's
lock-protected sections.) -/
theorem pending_working_nodup_disjoint (s : SrvState) (h : SrvReachable s) :
    s.pending.Nodup ∧ s.working.Nodup ∧ s.pending.Disjoint s.working := by
  have hinv : SrvInv s := by
    unfold SrvReachable at h
    induction h with
    | refl => exact srvInv_init
    | tail hab hbc ih => exact srvInv_step _ _ hbc ih
  obtain ⟨hnd, _⟩ := hinv
  have hnd2 : (s.pending ++ (s.working ++ s.held)).Nodup := hnd
  rcases List.nodup_append.mp hnd2 with ⟨hp, hwh, hdisj⟩
  rcases List.nodup_append.mp hwh with ⟨hw, _, _⟩
  refine ⟨hp, hw, ?_⟩
  intro a hap haw
  exact hdisj hap (List.mem_append_left _ haw)

/-- C8 witness: the theorem at the concrete reachable state with entry 1
pending and entry 0 in working (add, add, move). -/
theorem pending_working_nodup_disjoint_witness :
    (SrvState.mk [1] [0] [] 2).pending.Nodup ∧
    (SrvState.mk [1] [0] [] 2).working.Nodup ∧
    (SrvState.mk [1] [0] [] 2).pending.Disjoint (SrvState.mk [1] [0] [] 2).working := by
  have h1 : SrvStep srvInit (SrvState.mk [0] [] [] 1) := SrvStep.add srvInit
  have h2 : SrvStep (SrvState.mk [0] [] [] 1) (SrvState.mk [0, 1] [] [] 2) :=
    SrvStep.add (SrvState.mk [0] [] [] 1)
  have h3 : SrvStep (SrvState.mk [0, 1] [] [] 2) (SrvState.mk [1] [0] [] 2) :=
    SrvStep.move (SrvState.mk [0, 1] [] [] 2) 0 (by decide)
  exact pending_working_nodup_disjoint (SrvState.mk [1] [0] [] 2)
    (Relation.ReflTransGen.tail (Relation.ReflTransGen.tail
      (Relation.ReflTransGen.single h1) h2) h3)
